import Mathlib

/-!
Verification development for the ViennaRNA partition-function core
(src/ViennaRNA/part_func.c) and the constraint-file reader
(src/ViennaRNA/file_formats.c).

The C code is shallowly embedded: `FLT_OR_DBL` values become `ℚ`, the
triangular matrices (addressed in C through `iindx`/`jindx` offsets) become
total functions on the matrix coordinates `(i, j)`, and the external
collaborators that live outside the two source files (the loop-energy
functions of loop_energies.h, `exp`/`log` of libm, the gquad matrix, the
pairing-probability derivation) become opaque function fields of an
`EnergyEnv` record attached to the fold compound.  Stateful code is explicit
state passing on `PFState`; the fatal overflow `exit` of
`vrna_message_error_printf` is an `err` field that, once set, stops every
later loop iteration, and `vrna_pf` turns it into `Except.error`.
-/

namespace ViennaRNA

/-- INF of energy_const.h; `INF/100` is the sentinel failure energy of
`vrna_pf`. -/
def INF : ℚ := 10000000

/-- Modelled from the spec: compile-time maximum interior-loop span
("MAXLOOP") from the energy-constant header that is not part of src/. -/
def MAXLOOP : ℕ := 30

/-- Modelled from the spec: compile-time default minimum loop size ("turn")
from the energy-constant header that is not part of src/.  `wrap_alipf_circ`
uses this constant directly while `pf_circ` uses the model's
`min_loop_size`. -/
def TURN : ℕ := 3

/-- Modelled from the spec: hard-constraint context bitmasks of
constraints.h (not part of src/).  `VRNA_CONSTRAINT_CONTEXT_EXT_LOOP`. -/
def CTX_EXT_LOOP : ℕ := 1

/-- `VRNA_CONSTRAINT_CONTEXT_HP_LOOP`. -/
def CTX_HP_LOOP : ℕ := 2

/-- `VRNA_CONSTRAINT_CONTEXT_INT_LOOP`. -/
def CTX_INT_LOOP : ℕ := 4

/-- `VRNA_CONSTRAINT_CONTEXT_INT_LOOP_ENC`. -/
def CTX_INT_LOOP_ENC : ℕ := 8

/-- `VRNA_CONSTRAINT_CONTEXT_MB_LOOP`. -/
def CTX_MB_LOOP : ℕ := 16

/-- `VRNA_CONSTRAINT_CONTEXT_MB_LOOP_ENC`. -/
def CTX_MB_LOOP_ENC : ℕ := 32

/-- `VRNA_CONSTRAINT_CONTEXT_ENFORCE`. -/
def CTX_ENFORCE : ℕ := 64

/-- `VRNA_CONSTRAINT_CONTEXT_ALL_LOOPS` = the or of the six loop bits. -/
def CTX_ALL_LOOPS : ℕ := 63

/-- Modelled from the spec: unstructured-domain loop-type flags of
unstructured_domains.h (not part of src/); opaque tags handed to the
ligand-domain callback. -/
def UD_EXT_LOOP : ℕ := 1

/-- `VRNA_UNSTRUCTURED_DOMAIN_ML_LOOP`. -/
def UD_ML_LOOP : ℕ := 8

/-- `VRNA_UNSTRUCTURED_DOMAIN_MOTIF`. -/
def UD_MOTIF : ℕ := 16

/-- Modelled from the spec: decomposition tags of constraints.h passed to the
generic soft-constraint callback `exp_f`; the callback is opaque, so only
distinctness of the codes matters. -/
def DECOMP_EXT_UP : ℕ := 1

/-- `VRNA_DECOMP_EXT_EXT`. -/
def DECOMP_EXT_EXT : ℕ := 2

/-- `VRNA_DECOMP_EXT_STEM`. -/
def DECOMP_EXT_STEM : ℕ := 3

/-- `VRNA_DECOMP_EXT_EXT_EXT`. -/
def DECOMP_EXT_EXT_EXT : ℕ := 4

/-- `VRNA_DECOMP_ML_ML`. -/
def DECOMP_ML_ML : ℕ := 5

/-- `VRNA_DECOMP_ML_STEM`. -/
def DECOMP_ML_STEM : ℕ := 6

/-- `VRNA_DECOMP_ML_ML_ML`. -/
def DECOMP_ML_ML_ML : ℕ := 7

/-- Pointwise update of a 1-dimensional helper array. -/
def upd1 (f : ℕ → ℚ) (i : ℕ) (v : ℚ) : ℕ → ℚ :=
  fun a => if a = i then v else f a

/-- Pointwise update of a matrix (or of a width-indexed buffer family). -/
def upd2 (m : ℕ → ℕ → ℚ) (i j : ℕ) (v : ℚ) : ℕ → ℕ → ℚ :=
  fun a b => if a = i ∧ b = j then v else m a b

/-- Sum of `f a + f (a+1) + ... + f (a+m-1)`; the loops of the C code are
rendered with this structurally recursive sum. -/
def sumN (f : ℕ → ℚ) : ℕ → ℕ → ℚ
  | _, 0 => 0
  | a, Nat.succ m => f a + sumN f (a + 1) m

/-- Sum of `f` over the inclusive interval `[a, b]` (empty when `b < a`),
matching a C loop `for (k = a; k <= b; k++)`. -/
def isum (a b : ℕ) (f : ℕ → ℚ) : ℚ := sumN f a (b + 1 - a)

/-- Product of `f a * ... * f (a+m-1)`; renders the per-row products of the
alignment engine (`for (s=0; s<n_seq; s++) x *= ...`). -/
def prodN (f : ℕ → ℚ) : ℕ → ℕ → ℚ
  | _, 0 => 1
  | a, Nat.succ m => f a * prodN f (a + 1) m

/-- The list `[m, m-1, ..., 1]`: the inner loop order
`for (i = m; i >= 1; i--)`. -/
def downFrom : ℕ → List ℕ
  | 0 => []
  | Nat.succ m => (m + 1) :: downFrom m

/-- The list `[a, a+1, ..., b]`: the outer loop order
`for (j = a; j <= b; j++)`. -/
def upFrom (a b : ℕ) : List ℕ :=
  (List.range (b + 1 - a)).map (a + ·)

/-- Non-fatal diagnostics emitted from inside the recursion
(`vrna_message_warning_printf("Q close to overflow: %d %d %g", i, j, temp)`). -/
inductive Msg
  | qCloseToOverflow (i j : ℕ) (val : ℚ)
deriving DecidableEq

/-- Observable events of `vrna_pf` itself: the two status-callback
invocations and its two warnings. -/
inductive Event
  | statPre
  | statPost
  | warnUnrecognized
  | warnPfScaleTooLarge
deriving DecidableEq

/-- The `vc->type` discriminator.  `other` stands for any value of the C enum
that is neither `VRNA_VC_TYPE_SINGLE` nor `VRNA_VC_TYPE_ALIGNMENT`. -/
inductive FCType
  | single
  | alignment
  | other
deriving DecidableEq

/-- The partition-function matrices of `vrna_mx_pf_t` together with the
helper arrays that the recursion functions allocate locally
(`qq, qq1, qqm, qqm1`, and the width-indexed ligand buffers `qqu, qqmu`)
and the overflow bookkeeping (`Qmax`, warnings, the fatal-error interval).
Matrices are total functions on the (i, j) coordinates; the C code's
`iindx`/`jindx` flattening is absorbed into the coordinates. -/
structure PFState where
  q : ℕ → ℕ → ℚ
  qb : ℕ → ℕ → ℚ
  qm : ℕ → ℕ → ℚ
  qm1 : ℕ → ℕ → ℚ
  qm2 : ℕ → ℚ
  probs : ℕ → ℕ → ℚ
  q1k : ℕ → ℚ
  qln : ℕ → ℚ
  qq : ℕ → ℚ
  qq1 : ℕ → ℚ
  qqm : ℕ → ℚ
  qqm1 : ℕ → ℚ
  qqu : ℕ → ℕ → ℚ
  qqmu : ℕ → ℕ → ℚ
  qo : ℚ
  qho : ℚ
  qio : ℚ
  qmo : ℚ
  Qmax : ℚ
  warnings : List Msg
  err : Option (ℕ × ℕ)

/-- Model details (`vrna_md_t`) consumed by the two source files. -/
structure Model where
  circ : Bool
  gquad : Bool
  compute_bpp : Bool
  min_loop_size : ℕ
  backtrack_type : Char
  pair : ℤ → ℤ → ℕ
  rtype : ℕ → ℕ

/-- `vrna_exp_param_t`. -/
structure ExpParams where
  kT : ℚ
  pf_scale : ℚ
  expMLclosing : ℚ
  md : Model

/-- Single-sequence soft constraints (`vrna_sc_t`): the per-position unpaired
weights `exp_energy_up` and the generic decomposition callback `exp_f`,
each possibly absent (NULL). -/
structure SC where
  exp_energy_up : Option (ℕ → ℕ → ℚ)
  exp_f : Option (ℕ → ℕ → ℕ → ℕ → ℕ → ℚ)

/-- One row of the alignment soft constraints (`vc->scs[s]`). -/
structure SCAliRow where
  exp_energy_up : Option (ℕ → ℕ → ℚ)
  exp_energy_stack : Option (ℕ → ℚ)

/-- Ligand / unstructured domains (`vrna_ud_t`): the unique motif widths and
the opaque production-weight callback `exp_energy_cb (i, j, loop_type)`. -/
structure UD where
  uniq_motif_sizes : List ℕ
  exp_energy_cb : ℕ → ℕ → ℕ → ℚ

/-- Hard constraints (`vrna_hc_t`): the per-pair context matrix and the
maximal unpaired run lengths per position and loop context. -/
structure HC where
  matrix : ℕ → ℕ → ℕ
  up_ext : ℕ → ℕ
  up_ml : ℕ → ℕ
  up_hp : ℕ → ℕ
  up_int : ℕ → ℕ

/-- External collaborators: the opaque Boltzmann-weight functions of
loop_energies.h / exp_E_* (outside src/), libm's `exp` and `log`, the
precomputed gquad partition matrix, and the downstream
pairing-probability derivation `vrna_pairing_probs` (writes `probs` only). -/
structure EnergyEnv where
  exp_E_hp_loop : ℕ → ℕ → ℚ
  exp_E_int_loop : ℕ → ℕ → ℚ
  exp_E_mb_loop_fast : ℕ → ℕ → (ℕ → ℚ) → ℚ
  exp_E_MLstem : ℕ → ℤ → ℤ → ℚ
  exp_E_ExtLoop : ℕ → ℤ → ℤ → ℚ
  exp_E_Hairpin : ℕ → ℕ → ℤ → ℤ → List Char → ℚ
  exp_E_IntLoop : ℕ → ℕ → ℕ → ℕ → ℤ → ℤ → ℤ → ℤ → ℚ
  exp : ℚ → ℚ
  log : ℚ → ℚ
  G : ℕ → ℕ → ℚ
  pairing_probs : PFState → ℕ → ℕ → ℚ

/-- The compile-time floating type behind `FLT_OR_DBL`: its maximum
representable value (`FLT_MAX` or `DBL_MAX`) and `FLT_MIN`. -/
structure FloatCfg where
  max_real : ℚ
  flt_min : ℚ

/-- The fold compound (`vrna_fold_compound_t`) as consumed by part_func.c:
sequence encodings, alignment tables, constraints, parameters, the scaling
arrays (kept in `vrna_mx_pf_t` in C) and the persistent matrices `mx`. -/
structure FoldCompound where
  fctype : FCType
  length : ℕ
  n_seq : ℕ
  S1 : ℕ → ℤ
  S : ℕ → ℕ → ℤ
  S5 : ℕ → ℕ → ℤ
  S3 : ℕ → ℕ → ℤ
  a2s : ℕ → ℕ → ℕ
  Ss : ℕ → List Char
  ptype : ℕ → ℕ → ℕ
  pscore : ℕ → ℕ → ℚ
  hc : HC
  sc : Option SC
  scs : Option (ℕ → Option SCAliRow)
  domains_up : Option UD
  params : ExpParams
  scale : ℕ → ℚ
  expMLbase : ℕ → ℚ
  has_qm1 : Bool
  has_q1k_qln : Bool
  stat_cb : Bool
  E : EnergyEnv
  mx : PFState

/-- The result a returning `vrna_pf` call hands back: the free energy, the
(possibly matrix-updated) compound, and the observable events in order. -/
structure PFResult where
  free_energy : ℚ
  vc : Option FoldCompound
  events : List Event

/-- `sc ? (sc->exp_energy_up ? sc->exp_energy_up[pos][len] : 1) : 1`. -/
def scEup (sc : Option SC) (pos len : ℕ) : ℚ :=
  match sc with
  | none => 1
  | some c =>
    match c.exp_energy_up with
    | none => 1
    | some f => f pos len

/-- `sc && sc->exp_f ? sc->exp_f(i, j, k, l, d, sc->data) : 1`. -/
def scF (sc : Option SC) (i j k l d : ℕ) : ℚ :=
  match sc with
  | none => 1
  | some c =>
    match c.exp_f with
    | none => 1
    | some f => f i j k l d

/-- The exterior-loop ligand weight `domains_up->exp_energy_cb(vc, i, j,
VRNA_UNSTRUCTURED_DOMAIN_EXT_LOOP, ...)`, neutral when domains are absent. -/
def udExt (vc : FoldCompound) (i j : ℕ) : ℚ :=
  match vc.domains_up with
  | none => 1
  | some ud => ud.exp_energy_cb i j UD_EXT_LOOP

/-- The multiloop ligand weight over a segment, neutral when domains are
absent. -/
def udMLseg (vc : FoldCompound) (i j : ℕ) : ℚ :=
  match vc.domains_up with
  | none => 1
  | some ud => ud.exp_energy_cb i j UD_ML_LOOP

/-! Single-sequence linear engine `pf_linear` (part_func.c:286-708).  The
body of the double loop is split into one value definition per local of
the C code (`qbt1` for qb, `qqm[i]`, `qm[ij]`, `qq[i]`, `temp` for q); the
cell transformer then stores them exactly as the C statements do. -/

/-- `qb(i,j)` of part_func.c:414-431: zero unless the hard-constraint matrix
entry is nonzero, otherwise hairpin + interior + fast multibranch weight
(the latter reading the previous column's `qqm1` buffer). -/
def pf_qb_val (vc : FoldCompound) (j : ℕ) (s : PFState) (i : ℕ) : ℚ :=
  if vc.hc.matrix i j ≠ 0 then
    vc.E.exp_E_hp_loop i j + vc.E.exp_E_int_loop i j
      + vc.E.exp_E_mb_loop_fast i j s.qqm1
  else 0

/-- `qqm[i]` of part_func.c:433-498: unpaired extension of `qqm1[i]` (plus
ligand motifs) when position j may stay unpaired in a multiloop, plus the
stem term `qb(i,j)·exp_E_MLstem` when (i,j) may close a multiloop stem,
plus the gquad term. -/
def pf_qqm_val (vc : FoldCompound) (j : ℕ) (s : PFState) (i : ℕ) : ℚ :=
  let n := vc.length
  let circular := vc.params.md.circ
  let base :=
    if vc.hc.up_ml j ≠ 0 then
      s.qqm1 i * vc.expMLbase 1 * scEup vc.sc j 1
          * scF vc.sc i j i (j - 1) DECOMP_ML_ML
        + (match vc.domains_up with
           | none => 0
           | some ud =>
             ((ud.uniq_motif_sizes).map (fun u =>
               if i + u ≤ j ∧ u ≤ vc.hc.up_ml (j + 1 - u) then
                 s.qqmu u i
                   * ud.exp_energy_cb (j + 1 - u) j (Nat.lor UD_ML_LOOP UD_MOTIF)
                   * vc.expMLbase u * scEup vc.sc (j + 1 - u) u
               else 0)).sum)
    else 0
  let typeRaw := vc.ptype i j
  let type := if typeRaw = 0 then 7 else typeRaw
  let stem :=
    if Nat.land (vc.hc.matrix i j) CTX_MB_LOOP_ENC ≠ 0 then
      pf_qb_val vc j s i
        * vc.E.exp_E_MLstem type
            (if 1 < i ∨ circular then vc.S1 (i - 1) else -1)
            (if j < n ∨ circular then vc.S1 (j + 1) else -1)
        * scF vc.sc i j i j DECOMP_ML_STEM
    else 0
  let gq :=
    if vc.params.md.gquad then vc.E.G i j * vc.E.exp_E_MLstem 0 (-1) (-1)
    else 0
  base + stem + gq

/-- `qm(i,j)` of part_func.c:502-561: split terms `qm(i,k-1)·qqm[k]`, the
unpaired-prefix terms bounded by `hc->up_ml[i]`, and `qqm[i]` itself. -/
def pf_qm_val (vc : FoldCompound) (j : ℕ) (s : PFState) (i : ℕ) : ℚ :=
  let qqmB := upd1 s.qqm i (pf_qqm_val vc j s i)
  let split := isum (i + 1) j (fun k =>
    s.qm i (k - 1) * qqmB k * scF vc.sc i j (k - 1) k DECOMP_ML_ML_ML)
  let maxk := min (i + vc.hc.up_ml i) j
  let unp := isum (i + 1) maxk (fun k =>
    vc.expMLbase (k - i) * udMLseg vc i (k - 1) * qqmB k
      * scEup vc.sc i (k - i) * scF vc.sc i j k j DECOMP_ML_ML)
  split + unp + pf_qqm_val vc j s i

/-- `qq[i]` of part_func.c:563-618: unpaired extension of `qq1[i]` (plus
ligand motifs) when j may stay unpaired in the exterior loop, plus the
stem term `qb(i,j)·exp_E_ExtLoop` when (i,j) may close an exterior stem,
plus the gquad term. -/
def pf_qq_val (vc : FoldCompound) (j : ℕ) (s : PFState) (i : ℕ) : ℚ :=
  let n := vc.length
  let circular := vc.params.md.circ
  let unpExt :=
    if vc.hc.up_ext j ≠ 0 then
      s.qq1 i * vc.scale 1 * scEup vc.sc j 1
          * scF vc.sc i j i (j - 1) DECOMP_EXT_EXT
        + (match vc.domains_up with
           | none => 0
           | some ud =>
             ((ud.uniq_motif_sizes).map (fun u =>
               if i + u ≤ j ∧ u ≤ vc.hc.up_ext (j + 1 - u) then
                 s.qqu u i
                   * ud.exp_energy_cb (j + 1 - u) j (Nat.lor UD_EXT_LOOP UD_MOTIF)
                   * vc.scale u * scEup vc.sc (j + 1 - u) u
               else 0)).sum)
    else 0
  let typeRaw := vc.ptype i j
  let type := if typeRaw = 0 then 7 else typeRaw
  let stem :=
    if Nat.land (vc.hc.matrix i j) CTX_EXT_LOOP ≠ 0 then
      pf_qb_val vc j s i
        * vc.E.exp_E_ExtLoop type
            (if 1 < i ∨ circular then vc.S1 (i - 1) else -1)
            (if j < n ∨ circular then vc.S1 (j + 1) else -1)
        * scF vc.sc i j i j DECOMP_EXT_STEM
    else 0
  let gq := if vc.params.md.gquad then vc.E.G i j else 0
  unpExt + stem + gq

/-- `q(i,j)` of part_func.c:620-656: `qq[i]`, plus the fully-unpaired weight
when `hc->up_ext[i] ≥ j-i+1`, plus the exterior split terms
`q(i,k)·qq(k+1)` (each multiplied by `sc->exp_f` when installed). -/
def pf_q_val (vc : FoldCompound) (j : ℕ) (s : PFState) (i : ℕ) : ℚ :=
  let qqB := upd1 s.qq i (pf_qq_val vc j s i)
  let up :=
    if j - i + 1 ≤ vc.hc.up_ext i then
      vc.scale (j - i + 1) * scEup vc.sc i (j - i + 1)
        * scF vc.sc i j i j DECOMP_EXT_UP * udExt vc i j
    else 0
  let split := isum i (j - 1) (fun k =>
    s.q i k * qqB (k + 1) * scF vc.sc i j k (k + 1) DECOMP_EXT_EXT_EXT)
  pf_qq_val vc j s i + up + split

/-- One iteration of the inner loop of `pf_linear` (part_func.c:411-666):
stores the freshly computed cell values and performs the overflow
bookkeeping (`Qmax` update, near-overflow warning, fatal overflow
`vrna_message_error_printf` recorded as `err = some (i, j)`). -/
def pf_linear_cell (fl : FloatCfg) (vc : FoldCompound) (j : ℕ)
    (s : PFState) (i : ℕ) : PFState :=
  let qbV := pf_qb_val vc j s i
  let qqmV := pf_qqm_val vc j s i
  let qmV := pf_qm_val vc j s i
  let qqV := pf_qq_val vc j s i
  let qV := pf_q_val vc j s i
  { s with
    qb := upd2 s.qb i j qbV
    qqm := upd1 s.qqm i qqmV
    qqmu := if vc.domains_up.isSome then upd2 s.qqmu 0 i qqmV else s.qqmu
    qm1 := if vc.has_qm1 then upd2 s.qm1 i j qqmV else s.qm1
    qm := upd2 s.qm i j qmV
    qq := upd1 s.qq i qqV
    qqu := if vc.domains_up.isSome then upd2 s.qqu 0 i qqV else s.qqu
    q := upd2 s.q i j qV
    Qmax := if s.Qmax < qV then qV else s.Qmax
    warnings :=
      if s.Qmax < qV ∧ fl.max_real / 10 < qV then
        Msg.qCloseToOverflow i j qV :: s.warnings
      else s.warnings
    err := if fl.max_real ≤ qV then some (i, j) else s.err }

/-- The inner loop of `pf_linear` over `i = j-turn-1 .. 1`; once the fatal
error is set the process has exited, so no later cell runs. -/
def pf_linear_inner (fl : FloatCfg) (vc : FoldCompound) (s : PFState)
    (j : ℕ) : PFState :=
  (downFrom (j - vc.params.md.min_loop_size - 1)).foldl
    (fun t i => if t.err.isSome then t else pf_linear_cell fl vc j t i) s

/-- `ud_max_size` of part_func.c:366-368. -/
def udMaxSize (vc : FoldCompound) : ℕ :=
  match vc.domains_up with
  | none => 0
  | some ud => ud.uniq_motif_sizes.foldl max 0

/-- The rotation of the width-indexed ligand buffers
(part_func.c:671-681): the width-M slot wraps around to width 0. -/
def rotateUD (M : ℕ) (f : ℕ → ℕ → ℚ) : ℕ → ℕ → ℚ :=
  fun u i => if u = 0 then f M i else f (u - 1) i

/-- One column of `pf_linear`: the inner loop followed by the rolling-buffer
exchange `qq ↔ qq1`, `qqm ↔ qqm1` (part_func.c:667-668) and the ligand
buffer rotation; skipped entirely after a fatal error. -/
def pf_linear_col (fl : FloatCfg) (vc : FoldCompound) (s : PFState)
    (j : ℕ) : PFState :=
  let s1 := pf_linear_inner fl vc s j
  if s1.err.isSome then s1
  else
    { s1 with
      qq := s1.qq1
      qq1 := s1.qq
      qqm := s1.qqm1
      qqm1 := s1.qqm
      qqu := if vc.domains_up.isSome then rotateUD (udMaxSize vc) s1.qqu else s1.qqu
      qqmu := if vc.domains_up.isSome then rotateUD (udMaxSize vc) s1.qqmu else s1.qqmu }

/-- The locally allocated helper arrays start zeroed (vrna_alloc) and `Qmax`
starts at 0 (part_func.c:294, 350-353). -/
def resetBuffers (s : PFState) : PFState :=
  { s with
    qq := fun _ => 0
    qq1 := fun _ => 0
    qqm := fun _ => 0
    qqm1 := fun _ => 0
    qqu := fun _ _ => 0
    qqmu := fun _ _ => 0
    Qmax := 0 }

/-- The seeding loop of part_func.c:386-408: every interval of width
`d ≤ turn` gets the all-unpaired weight in `q` when permitted (0 otherwise)
and zero in `qb` and `qm`. -/
def pf_linear_init (vc : FoldCompound) (s : PFState) : PFState :=
  let n := vc.length
  let turn := vc.params.md.min_loop_size
  { s with
    q := fun i j =>
      if 1 ≤ i ∧ i ≤ j ∧ j ≤ n ∧ j - i ≤ turn then
        (if j - i < vc.hc.up_ext i then
          1 * vc.scale (j - i + 1) * scEup vc.sc i (j - i + 1)
            * scF vc.sc i j i j DECOMP_EXT_UP * udExt vc i j
        else 0)
      else s.q i j
    qb := fun i j =>
      if 1 ≤ i ∧ i ≤ j ∧ j ≤ n ∧ j - i ≤ turn then 0 else s.qb i j
    qm := fun i j =>
      if 1 ≤ i ∧ i ≤ j ∧ j ≤ n ∧ j - i ≤ turn then 0 else s.qm i j }

/-- `pf_linear` (part_func.c:286-708): seeding, the column loop
`j = turn+2 .. n`, and the final `q1k`/`qln` convenience fill (skipped when
the pass aborted fatally, since the C process has exited). -/
def pf_linear (fl : FloatCfg) (vc : FoldCompound) (s0 : PFState) : PFState :=
  let n := vc.length
  let turn := vc.params.md.min_loop_size
  let s1 := pf_linear_init vc (resetBuffers s0)
  let s2 := (upFrom (turn + 2) n).foldl (pf_linear_col fl vc) s1
  if s2.err.isSome then s2
  else if vc.has_q1k_qln then
    { s2 with
      q1k := fun k => if k = 0 then 1 else if k ≤ n then s2.q 1 k else s2.q1k k
      qln := fun k =>
        if k = n + 1 then 1 else if 1 ≤ k ∧ k ≤ n then s2.q k n else s2.qln k }
  else s2

/-! Single-sequence circular post-processing `pf_circ`
(part_func.c:714-813). -/

/-- `pf_circ`: builds `qm2` from `qm1`, accumulates the exterior hairpin,
interior-loop and multiloop contributions `qho, qio, qmo`, and stores the
total `qo = qho + qio + qmo + scale[n]`.  The C `break` statements on the
monotone interior-loop size caps are rendered as guards (all later
iterations fail the same test). -/
def pf_circ (vc : FoldCompound) (s : PFState) : PFState :=
  let n := vc.length
  let turn := vc.params.md.min_loop_size
  let rty := vc.params.md.rtype
  let qm2N : ℕ → ℚ := fun k =>
    if 1 ≤ k ∧ k < n - (turn + 1) then
      isum (k + turn + 1) (n - (turn + 2)) (fun u => s.qm1 k u * s.qm1 (u + 1) n)
    else s.qm2 k
  let qhoN := isum 1 (n - 1) (fun p => isum (p + turn + 1) n (fun q =>
    s.qb p q * vc.E.exp_E_hp_loop q p))
  let qioN := isum 1 (n - 1) (fun p => isum (p + turn + 1) n (fun q =>
    let u := n - q + p - 1
    if u < turn then 0
    else
      let t0 := vc.ptype p q
      if t0 = 0 then 0
      else
        let ty := rty t0
        isum (q + 1) (n - 1) (fun k =>
          let ln1 := k - q - 1
          if MAXLOOP < ln1 + p - 1 then 0
          else
            let lstart := max (ln1 + p - 1 + n - MAXLOOP) (k + turn + 1)
            isum lstart n (fun l =>
              let ln2 := p - 1 + (n - l)
              if MAXLOOP < ln1 + ln2 then 0
              else
                let t2 := vc.ptype k l
                if t2 = 0 then 0
                else
                  s.qb p q * s.qb k l
                    * vc.E.exp_E_IntLoop ln2 ln1 (rty t2) ty
                        (vc.S1 (l + 1)) (vc.S1 (k - 1)) (vc.S1 (p - 1)) (vc.S1 (q + 1))
                    * vc.scale (ln1 + ln2)))))
  let qmoN := isum (turn + 2) (n - (2 * turn + 4)) (fun k =>
    s.qm 1 k * qm2N (k + 1) * vc.params.expMLclosing)
  { s with
    qm2 := qm2N
    qho := qhoN
    qio := qioN
    qmo := qmoN
    qo := qhoN + qioN + qmoN + 1 * vc.scale n }

/-! Alignment (comparative) linear engine `alipf_linear`
(part_func.c:823-1028), same decomposition as the single-sequence engine:
per-row quantities are multiplied across the `n_seq` rows and the
covariance factor `exp(pscore/kTn)` multiplies `qb`. -/

/-- The per-row pair type `md->pair[S[s][i]][S[s][j]]` with the 0 → 7
fallback (part_func.c:900-903). -/
def aliType (vc : FoldCompound) (i j sI : ℕ) : ℕ :=
  let t := vc.params.md.pair (vc.S sI i) (vc.S sI j)
  if t = 0 then 7 else t

/-- The per-row product of `sc[s]->exp_energy_up[a2s[s][pos]][len s]` with
NULL rows and NULL tables neutral. -/
def aliEupSeg (vc : FoldCompound) (pos : ℕ) (len : ℕ → ℕ) : ℚ :=
  match vc.scs with
  | none => 1
  | some rows =>
    prodN (fun sI =>
      match rows sI with
      | none => 1
      | some r =>
        match r.exp_energy_up with
        | none => 1
        | some f => f (vc.a2s sI pos) (len sI)) 0 vc.n_seq

/-- `qb(i,j)` of part_func.c:905-919: the three loop contributions, scaled
by the covariance Boltzmann factor `exp(pscore/kTn)` with
`kTn = kT/10`. -/
def ali_qb_val (vc : FoldCompound) (j : ℕ) (s : PFState) (i : ℕ) : ℚ :=
  if vc.hc.matrix i j ≠ 0 then
    (vc.E.exp_E_hp_loop i j + vc.E.exp_E_int_loop i j
        + vc.E.exp_E_mb_loop_fast i j s.qqm1)
      * vc.E.exp (vc.pscore i j / (vc.params.kT / 10))
  else 0

/-- `qqm[i]` of part_func.c:921-941. -/
def ali_qqm_val (vc : FoldCompound) (j : ℕ) (s : PFState) (i : ℕ) : ℚ :=
  let n := vc.length
  let circular := vc.params.md.circ
  let base :=
    if vc.hc.up_ml i ≠ 0 then
      s.qqm1 i * vc.expMLbase 1 * aliEupSeg vc i (fun _ => 1)
    else 0
  let stem :=
    if Nat.land (vc.hc.matrix i j) CTX_MB_LOOP_ENC ≠ 0 then
      ali_qb_val vc j s i
        * prodN (fun sI =>
            vc.E.exp_E_MLstem (aliType vc i j sI)
              (if 1 < i ∨ circular then vc.S5 sI i else -1)
              (if j < n ∨ circular then vc.S3 sI j else -1)) 0 vc.n_seq
    else 0
  base + stem

/-- `qm(i,j)` of part_func.c:946-966; the `break` on `hc->up_ml[i] < k-i`
is the upper bound `min (i + up_ml i) j` of the unpaired-prefix sum. -/
def ali_qm_val (vc : FoldCompound) (j : ℕ) (s : PFState) (i : ℕ) : ℚ :=
  let qqmB := upd1 s.qqm i (ali_qqm_val vc j s i)
  let split := isum (i + 1) j (fun k => s.qm i (k - 1) * qqmB k)
  let unp := isum (i + 1) (min (i + vc.hc.up_ml i) j) (fun k =>
    vc.expMLbase (k - i) * qqmB k
      * aliEupSeg vc i (fun sI => vc.a2s sI k - vc.a2s sI i))
  split + unp + ali_qqm_val vc j s i

/-- `qq[i]` of part_func.c:968-987: the exterior stem term (guarded by
`qb(i,j) > 0`) plus the unpaired extension of `qq1[i]`. -/
def ali_qq_val (vc : FoldCompound) (j : ℕ) (s : PFState) (i : ℕ) : ℚ :=
  let n := vc.length
  let circular := vc.params.md.circ
  let stem :=
    if 0 < ali_qb_val vc j s i
        ∧ Nat.land (vc.hc.matrix i j) CTX_EXT_LOOP ≠ 0 then
      ali_qb_val vc j s i
        * prodN (fun sI =>
            vc.E.exp_E_ExtLoop (aliType vc i j sI)
              (if 1 < i ∨ circular then vc.S5 sI i else -1)
              (if j < n ∨ circular then vc.S3 sI j else -1)) 0 vc.n_seq
    else 0
  let unp :=
    if vc.hc.up_ext i ≠ 0 then
      s.qq1 i * vc.scale 1 * aliEupSeg vc i (fun _ => 1)
    else 0
  stem + unp

/-- `q(i,j)` of part_func.c:989-1006. -/
def ali_q_val (vc : FoldCompound) (j : ℕ) (s : PFState) (i : ℕ) : ℚ :=
  let qqB := upd1 s.qq i (ali_qq_val vc j s i)
  let up :=
    if j - i + 1 ≤ vc.hc.up_ext i then
      1 * vc.scale (j - i + 1)
        * aliEupSeg vc i (fun sI => vc.a2s sI j - vc.a2s sI i + 1)
    else 0
  let split := isum i (j - 1) (fun k => s.q i k * qqB (k + 1))
  ali_qq_val vc j s i + up + split

/-- One iteration of the inner loop of `alipf_linear`
(part_func.c:893-1017) with the same overflow bookkeeping as the
single-sequence engine (part_func.c:1008-1016). -/
def alipf_linear_cell (fl : FloatCfg) (vc : FoldCompound) (j : ℕ)
    (s : PFState) (i : ℕ) : PFState :=
  let qbV := ali_qb_val vc j s i
  let qqmV := ali_qqm_val vc j s i
  let qmV := ali_qm_val vc j s i
  let qqV := ali_qq_val vc j s i
  let qV := ali_q_val vc j s i
  { s with
    qb := upd2 s.qb i j qbV
    qqm := upd1 s.qqm i qqmV
    qm1 := if vc.has_qm1 then upd2 s.qm1 i j qqmV else s.qm1
    qm := upd2 s.qm i j qmV
    qq := upd1 s.qq i qqV
    q := upd2 s.q i j qV
    Qmax := if s.Qmax < qV then qV else s.Qmax
    warnings :=
      if s.Qmax < qV ∧ fl.max_real / 10 < qV then
        Msg.qCloseToOverflow i j qV :: s.warnings
      else s.warnings
    err := if fl.max_real ≤ qV then some (i, j) else s.err }

/-- The inner loop of `alipf_linear` over `i = j-turn-1 .. 1`. -/
def alipf_linear_inner (fl : FloatCfg) (vc : FoldCompound) (s : PFState)
    (j : ℕ) : PFState :=
  (downFrom (j - vc.params.md.min_loop_size - 1)).foldl
    (fun t i => if t.err.isSome then t else alipf_linear_cell fl vc j t i) s

/-- One column of `alipf_linear`: the inner loop followed by the buffer
exchange `qq ↔ qq1`, `qqm ↔ qqm1` (part_func.c:1018-1019). -/
def alipf_linear_col (fl : FloatCfg) (vc : FoldCompound) (s : PFState)
    (j : ℕ) : PFState :=
  let s1 := alipf_linear_inner fl vc s j
  if s1.err.isSome then s1
  else
    { s1 with
      qq := s1.qq1
      qq1 := s1.qq
      qqm := s1.qqm1
      qqm1 := s1.qqm }

/-- The seeding loop of part_func.c:872-887: `q` is written only when the
interval may stay unpaired (no else branch in the alignment engine);
`qb` and `qm` are zeroed. -/
def alipf_linear_init (vc : FoldCompound) (s : PFState) : PFState :=
  let n := vc.length
  let turn := vc.params.md.min_loop_size
  { s with
    q := fun i j =>
      if 1 ≤ i ∧ i ≤ j ∧ j ≤ n ∧ j - i ≤ turn ∧ j - i < vc.hc.up_ext i then
        1 * vc.scale (j - i + 1) * aliEupSeg vc i (fun _ => j - i + 1)
      else s.q i j
    qb := fun i j =>
      if 1 ≤ i ∧ i ≤ j ∧ j ≤ n ∧ j - i ≤ turn then 0 else s.qb i j
    qm := fun i j =>
      if 1 ≤ i ∧ i ≤ j ∧ j ≤ n ∧ j - i ≤ turn then 0 else s.qm i j }

/-- `alipf_linear` (part_func.c:823-1028): seeding, explicit zeroing of the
rolling buffers (part_func.c:889-890), and the column loop. -/
def alipf_linear (fl : FloatCfg) (vc : FoldCompound) (s0 : PFState) : PFState :=
  let n := vc.length
  let turn := vc.params.md.min_loop_size
  let s1 := alipf_linear_init vc (resetBuffers s0)
  (upFrom (turn + 2) n).foldl (alipf_linear_col fl vc) s1

/-! Alignment circular post-processing `wrap_alipf_circ`
(part_func.c:1035-1196).  Note that this function uses the compile-time
constant `TURN` throughout, where `pf_circ` uses the model's
`min_loop_size`. -/

/-- The per-row exterior hairpin loop sequence of part_func.c:1096-1103:
for a loop shorter than 9 the row string is rotated so that the region
outside `[p,q]` becomes contiguous; for longer loops the C buffer is left
unused by `exp_E_Hairpin` and is modelled as empty. -/
def aliHpLoopseq (vc : FoldCompound) (sI p q : ℕ) : List Char :=
  if vc.a2s sI vc.length - vc.a2s sI q + vc.a2s sI p - 1 < 9 then
    ((vc.Ss sI).drop (vc.a2s sI q - 1)) ++ ((vc.Ss sI).take (vc.a2s sI p))
  else []

/-- The per-row soft-constraint factor of the exterior hairpin
(part_func.c:1106-1114). -/
def aliHpSc (vc : FoldCompound) (p q : ℕ) : ℚ :=
  match vc.scs with
  | none => 1
  | some rows =>
    prodN (fun sI =>
      match rows sI with
      | none => 1
      | some r =>
        match r.exp_energy_up with
        | none => 1
        | some eup =>
          (if 1 < p then eup 1 (vc.a2s sI p - 1) else 1)
            * (if q < vc.length then
                eup (vc.a2s sI q + 1) (vc.a2s sI vc.length - vc.a2s sI q)
              else 1)) 0 vc.n_seq

/-- The per-row soft-constraint factor of the exterior interior loop
(part_func.c:1154-1172): stacking weights when both loop sides are empty
and no row has a gap at the four pair positions, times the unpaired-run
weights. -/
def aliIntSc (vc : FoldCompound) (p q k l : ℕ) : ℚ :=
  match vc.scs with
  | none => 1
  | some rows =>
    prodN (fun sI =>
      match rows sI with
      | none => 1
      | some r =>
        let ln1a := vc.a2s sI k - 1 - vc.a2s sI q
        let ln2a := vc.a2s sI vc.length - vc.a2s sI l + vc.a2s sI p - 1
        (if ln1a + ln2a = 0 then
          match r.exp_energy_stack with
          | none => 1
          | some stk =>
            if vc.S sI p ≠ 0 ∧ vc.S sI q ≠ 0 ∧ vc.S sI k ≠ 0 ∧ vc.S sI l ≠ 0 then
              stk (vc.a2s sI p) * stk (vc.a2s sI q)
                * stk (vc.a2s sI k) * stk (vc.a2s sI l)
            else 1
        else 1)
          * (match r.exp_energy_up with
             | none => 1
             | some eup =>
               eup (vc.a2s sI q + 1) ln1a
                 * (if l < vc.length then
                     eup (vc.a2s sI l + 1) (vc.a2s sI vc.length - vc.a2s sI l)
                   else 1)
                 * (if 1 < p then eup 1 (vc.a2s sI p - 1) else 1))) 0 vc.n_seq

/-- `wrap_alipf_circ`: `qm2` from `qm1`, then the hairpin, interior-loop
and multiloop accumulators, then
`qo = qho + qio + qmo`, plus `scale[n]` only when `hc->up_ext[1] ≥ n`
(part_func.c:1185-1188).  The loop variable `u` is reassigned inside the
per-row hairpin loop, so the `scale[u]` factor of part_func.c:1115 uses
the last row's ungapped loop length. -/
def wrap_alipf_circ (vc : FoldCompound) (s : PFState) : PFState :=
  let n := vc.length
  let rty := vc.params.md.rtype
  let qm2N : ℕ → ℚ := fun k =>
    if 1 ≤ k ∧ k < n - TURN then
      isum (k + TURN + 1) (n - (TURN + 2)) (fun u => s.qm1 k u * s.qm1 (u + 1) n)
    else s.qm2 k
  let qhoN := isum 1 (n - 1) (fun p => isum (p + TURN + 1) n (fun q =>
    let u := n - q + p - 1
    if u < TURN then 0
    else if vc.hc.matrix p q = 0 then 0
    else if Nat.land (vc.hc.matrix p q) CTX_HP_LOOP ≠ 0 ∧ u < vc.hc.up_hp (q + 1) then
      let rowProd := prodN (fun sI =>
        vc.E.exp_E_Hairpin (vc.a2s sI n - vc.a2s sI q + vc.a2s sI p - 1)
          (rty (aliType vc p q sI)) (vc.S3 sI q) (vc.S5 sI p)
          (aliHpLoopseq vc sI p q)) 0 vc.n_seq
      let uLast :=
        if vc.n_seq = 0 then u
        else vc.a2s (vc.n_seq - 1) n - vc.a2s (vc.n_seq - 1) q
              + vc.a2s (vc.n_seq - 1) p - 1
      s.qb p q * (rowProd * aliHpSc vc p q) * vc.scale uLast
    else 0))
  let qioN := isum 1 (n - 1) (fun p => isum (p + TURN + 1) n (fun q =>
    let u := n - q + p - 1
    if u < TURN then 0
    else if vc.hc.matrix p q = 0 then 0
    else if Nat.land (vc.hc.matrix p q) CTX_INT_LOOP = 0 then 0
    else
      isum (q + 1) (n - 1) (fun k =>
        let ln1 := k - q - 1
        if MAXLOOP < ln1 + p - 1 then 0
        else if vc.hc.up_int (q + 1) < ln1 then 0
        else
          let lstart := max (ln1 + p - 1 + n - MAXLOOP) (k + TURN + 1)
          isum lstart n (fun l =>
            let ln2 := p - 1 + (n - l)
            if Nat.land (vc.hc.matrix k l) CTX_INT_LOOP = 0 then 0
            else if MAXLOOP < ln1 + ln2 then 0
            else if vc.hc.up_int (l + 1) < ln2 then 0
            else if s.qb k l = 0 then 0
            else
              let qloop := prodN (fun sI =>
                vc.E.exp_E_IntLoop (vc.a2s sI k - 1 - vc.a2s sI q)
                  (vc.a2s sI n - vc.a2s sI l + vc.a2s sI p - 1)
                  (rty (aliType vc p q sI))
                  (let t := vc.params.md.pair (vc.S sI l) (vc.S sI k)
                   if t = 0 then 7 else t)
                  (vc.S3 sI q) (vc.S5 sI p) (vc.S5 sI k) (vc.S3 sI l)) 0 vc.n_seq
              s.qb p q * s.qb k l * (qloop * aliIntSc vc p q k l)
                * vc.scale (ln1 + ln2)))))
  let qmoN := isum (TURN + 2) (n - (2 * TURN + 4)) (fun k =>
    s.qm 1 k * qm2N (k + 1) * vc.params.expMLclosing ^ vc.n_seq)
  { s with
    qm2 := qm2N
    qho := qhoN
    qio := qioN
    qmo := qmoN
    qo := qhoN + qioN + qmoN
            + (if n ≤ vc.hc.up_ext 1 then 1 * vc.scale n else 0) }

/-! Public interface `vrna_pf` (part_func.c:162-284). -/

/-- Modelled from the spec: `vrna_fold_compound_prepare` (outside src/) only
sets up and allocates the partition-function matrices; allocation is anyway
implicit in this embedding, so the preparation step is the identity on the
observable compound. -/
def vrna_fold_compound_prepare (vc : FoldCompound) : FoldCompound := vc

/-- The quantity whose logarithm is reported (part_func.c:254-258):
`qb(1,n)` for backtrack type `C`, `qm(1,n)` for `M`, `qo` for circular
models, and `q(1,n)` otherwise. -/
def Q_select (md : Model) (n : ℕ) (mx : PFState) : ℚ :=
  if md.backtrack_type = 'C' then mx.qb 1 n
  else if md.backtrack_type = 'M' then mx.qm 1 n
  else if md.circ then mx.qo else mx.q 1 n

/-- The tail of `vrna_pf` after the recursion switch (part_func.c:226-272):
status callback, optional pairing-probability derivation (writes `probs`
only), the `pf_scale too large` warning, and the ensemble free energy. -/
def vrna_pf_finish (fl : FloatCfg) (vc : FoldCompound) (ev : List Event)
    (mx : PFState) : Except (ℕ × ℕ) PFResult :=
  let n := vc.length
  let ev1 := ev ++ (if vc.stat_cb then [Event.statPost] else [])
  let mx1 :=
    if vc.params.md.compute_bpp then
      { mx with probs := vc.E.pairing_probs mx }
    else mx
  let Q := Q_select vc.params.md n mx1
  let ev2 := ev1 ++ (if Q ≤ fl.flt_min then [Event.warnPfScaleTooLarge] else [])
  let fe :=
    match vc.fctype with
    | FCType.alignment =>
      (-(vc.E.log Q) - (n : ℚ) * vc.E.log vc.params.pf_scale) * vc.params.kT
        / (1000 * (vc.n_seq : ℚ))
    | _ =>
      (-(vc.E.log Q) - (n : ℚ) * vc.E.log vc.params.pf_scale) * vc.params.kT
        / 1000
  Except.ok ⟨fe, some { vc with mx := mx1 }, ev2⟩

/-- `vrna_pf` (part_func.c:162-284).  A NULL compound returns the sentinel
energy immediately; a prepared compound runs the engine matching its type
(plus circular post-processing), while an unrecognized type warns and
returns the sentinel; a fatal overflow inside the linear pass is the C
process exit, modelled as `Except.error` carrying the offending
interval. -/
def vrna_pf (fl : FloatCfg) (inp : Option FoldCompound) :
    Except (ℕ × ℕ) PFResult :=
  match inp with
  | none => Except.ok ⟨INF / 100, none, []⟩
  | some vc0 =>
    let vc := vrna_fold_compound_prepare vc0
    let preEv := if vc.stat_cb then [Event.statPre] else []
    match vc.fctype with
    | FCType.other =>
      Except.ok ⟨INF / 100, some vc, preEv ++ [Event.warnUnrecognized]⟩
    | FCType.single =>
      let mx1 := pf_linear fl vc vc.mx
      match mx1.err with
      | some ij => Except.error ij
      | none =>
        let mx2 := if vc.params.md.circ then pf_circ vc mx1 else mx1
        vrna_pf_finish fl vc preEv mx2
    | FCType.alignment =>
      let mx1 := alipf_linear fl vc vc.mx
      match mx1.err with
      | some ij => Except.error ij
      | none =>
        let mx2 := if vc.params.md.circ then wrap_alipf_circ vc mx1 else mx1
        vrna_pf_finish fl vc preEv mx2

/-- The matrices as they stand at the point where `vrna_pf` reads `Q`
(before the `probs`-only pairing-probability write), for a compound that
did not abort: linear pass plus the circular post-processing when the
model is circular. -/
def pf_post_mx (fl : FloatCfg) (vc0 : FoldCompound) : PFState :=
  let vc := vrna_fold_compound_prepare vc0
  match vc.fctype with
  | FCType.single =>
    let m := pf_linear fl vc vc.mx
    if vc.params.md.circ then pf_circ vc m else m
  | FCType.alignment =>
    let m := alipf_linear fl vc vc.mx
    if vc.params.md.circ then wrap_alipf_circ vc m else m
  | FCType.other => vc.mx

/-! Constraint-file reader (file_formats.c:752-882): the combination of the
loop-type character and the command character into a context bitmask. -/

/-- The loop-type switch of file_formats.c:798-813. -/
def looptype_context (looptype : Char) : ℕ :=
  if looptype = 'E' then CTX_EXT_LOOP
  else if looptype = 'H' then CTX_HP_LOOP
  else if looptype = 'I' then CTX_INT_LOOP
  else if looptype = 'i' then CTX_INT_LOOP_ENC
  else if looptype = 'M' then CTX_MB_LOOP
  else if looptype = 'm' then CTX_MB_LOOP_ENC
  else CTX_ALL_LOOPS

/-- The command dispatch of file_formats.c:814-823 as written: `P` takes the
complement (32-bit `~` then masked to `ALL_LOOPS`); every other command
falls into the branch guarded by `command = 'F'` — an assignment, not a
comparison, whose value `'F'` is nonzero — so the `ENFORCE` bit is or-ed
in for every non-`P` command and the `U`/`B` branch of lines 819-820 is
unreachable. -/
def read_constraints_type (command looptype : Char) : ℕ :=
  let t := looptype_context looptype
  if command = 'P' then Nat.land (Nat.xor t 4294967295) CTX_ALL_LOOPS
  else Nat.lor t CTX_ENFORCE

/-! Concrete instances used to evaluate the embedding on closed inputs. -/

/-- All-zero matrix state. -/
def mx0 : PFState where
  q := fun _ _ => 0
  qb := fun _ _ => 0
  qm := fun _ _ => 0
  qm1 := fun _ _ => 0
  qm2 := fun _ => 0
  probs := fun _ _ => 0
  q1k := fun _ => 0
  qln := fun _ => 0
  qq := fun _ => 0
  qq1 := fun _ => 0
  qqm := fun _ => 0
  qqm1 := fun _ => 0
  qqu := fun _ _ => 0
  qqmu := fun _ _ => 0
  qo := 0
  qho := 0
  qio := 0
  qmo := 0
  Qmax := 0
  warnings := []
  err := none

/-- Neutral collaborator environment. -/
def E0 : EnergyEnv where
  exp_E_hp_loop := fun _ _ => 0
  exp_E_int_loop := fun _ _ => 0
  exp_E_mb_loop_fast := fun _ _ _ => 0
  exp_E_MLstem := fun _ _ _ => 0
  exp_E_ExtLoop := fun _ _ _ => 0
  exp_E_Hairpin := fun _ _ _ _ _ => 0
  exp_E_IntLoop := fun _ _ _ _ _ _ _ _ => 0
  exp := fun _ => 0
  log := fun _ => 0
  G := fun _ _ => 0
  pairing_probs := fun _ _ _ => 0

/-- Fully prohibiting hard constraints. -/
def hc0 : HC where
  matrix := fun _ _ => 0
  up_ext := fun _ => 0
  up_ml := fun _ => 0
  up_hp := fun _ => 0
  up_int := fun _ => 0

/-- Default-style model details: linear, no gquad, default turn. -/
def md0 : Model where
  circ := false
  gquad := false
  compute_bpp := false
  min_loop_size := 3
  backtrack_type := 'F'
  pair := fun _ _ => 0
  rtype := fun t => t

/-- Simple parameter set over `md0`. -/
def params0 : ExpParams where
  kT := 620
  pf_scale := 1
  expMLclosing := 1
  md := md0

/-- The double-precision float configuration. -/
def fl0 : FloatCfg where
  max_real := 10 ^ 30
  flt_min := 0

/-- A minimal single-sequence compound of length 1. -/
def vc0 : FoldCompound where
  fctype := FCType.single
  length := 1
  n_seq := 1
  S1 := fun _ => 0
  S := fun _ _ => 0
  S5 := fun _ _ => 0
  S3 := fun _ _ => 0
  a2s := fun _ i => i
  Ss := fun _ => []
  ptype := fun _ _ => 0
  pscore := fun _ _ => 0
  hc := hc0
  sc := none
  scs := none
  domains_up := none
  params := params0
  scale := fun _ => 1
  expMLbase := fun _ => 1
  has_qm1 := true
  has_q1k_qln := false
  stat_cb := false
  E := E0
  mx := mx0

/-- A single-sequence compound of length 3, minimum loop size 0, everything
allowed, unit loop weights, and a generic soft-constraint callback that
returns 2 on every decomposition. -/
def vcC2 : FoldCompound :=
  { vc0 with
    length := 3
    params := { params0 with md := { md0 with min_loop_size := 0 } }
    hc :=
      { matrix := fun _ _ => CTX_ALL_LOOPS
        up_ext := fun _ => 10
        up_ml := fun _ => 10
        up_hp := fun _ => 0
        up_int := fun _ => 0 }
    sc := some ⟨none, some (fun _ _ _ _ _ => 2)⟩
    E :=
      { E0 with
        exp_E_hp_loop := fun _ _ => 1
        exp_E_MLstem := fun _ _ _ => 1
        exp_E_ExtLoop := fun _ _ _ => 1 } }

/-- An alignment compound of length 2 over one row, minimum loop size 0,
everything allowed, unit hairpin weight, and a covariance Boltzmann factor
`exp(pscore/kTn) = 2`. -/
def vcC3 : FoldCompound :=
  { vc0 with
    fctype := FCType.alignment
    length := 2
    params := { params0 with md := { md0 with min_loop_size := 0 } }
    hc :=
      { matrix := fun _ _ => CTX_ALL_LOOPS
        up_ext := fun _ => 10
        up_ml := fun _ => 10
        up_hp := fun _ => 0
        up_int := fun _ => 0 }
    E :=
      { E0 with
        exp_E_hp_loop := fun _ _ => 1
        exp := fun _ => 2 } }

/-- An alignment compound of length 1 whose position 1 must not stay
unpaired (`hc->up_ext[1] = 0 < n`); its scale array is constant 1. -/
def vcC5 : FoldCompound :=
  { vc0 with
    fctype := FCType.alignment }

/-- An alignment compound of length 9 with model minimum loop size 2 and a
`qm1` matrix carrying exactly the two branches `qm1(1,4) = qm1(5,9) = 1`,
which the model's bound admits but the compile-time `TURN` bound skips. -/
def vcC6 : FoldCompound :=
  { vc0 with
    fctype := FCType.alignment
    length := 9
    params := { params0 with md := { md0 with min_loop_size := 2 } }
    mx :=
      { mx0 with
        qm1 := fun i j =>
          if i = 1 ∧ j = 4 then 1 else if i = 5 ∧ j = 9 then 1 else 0 } }

/-- A compound carrying an unrecognized type discriminator. -/
def vcC9 : FoldCompound :=
  { vc0 with fctype := FCType.other, stat_cb := true }

/-! Theorems.  The Batteries rational operations are `@[irreducible]` for
the elaborator only; evaluation of the embedding on closed inputs makes
them semireducible again within this file. -/

attribute [local semireducible] Rat.add Rat.mul Rat.sub Rat.inv

set_option maxRecDepth 100000

/-- `sumN` only depends on the summand inside the summation window. -/
theorem sumN_congr (f g : ℕ → ℚ) :
    ∀ (m a : ℕ), (∀ k, a ≤ k → k < a + m → f k = g k) →
      sumN f a m = sumN g a m := by
  intro m
  induction m with
  | zero => intro a _; rfl
  | succ m ih =>
    intro a h
    have h0 : f a = g a := h a (Nat.le_refl a) (by omega)
    have h1 : sumN f (a + 1) m = sumN g (a + 1) m := by
      apply ih
      intro k hk1 hk2
      exact h k (by omega) (by omega)
    simp only [sumN, h0, h1]

/-- `isum` only depends on the summand on `[a, b]`. -/
theorem isum_congr (a b : ℕ) (f g : ℕ → ℚ)
    (h : ∀ k, a ≤ k → k ≤ b → f k = g k) : isum a b f = isum a b g := by
  apply sumN_congr
  intro k hk1 hk2
  exact h k hk1 (by omega)

/-- Reading an updated matrix back at the written coordinates. -/
theorem upd2_same (m : ℕ → ℕ → ℚ) (i j : ℕ) (v : ℚ) : upd2 m i j v i j = v := by
  simp [upd2]

/-- Reading an updated helper array back at the written position. -/
theorem upd1_same (f : ℕ → ℚ) (i : ℕ) (v : ℚ) : upd1 f i v i = v := by
  simp [upd1]

/-- C3 (amended): in both linear engines the cell value `qb(i,j)` is zero
whenever the hard-constraint matrix entry for (i,j) is zero; when it is
nonzero, the single-sequence engine stores exactly the sum of the three
loop contributions (hairpin, interior, and the fast multiloop closing
computed from the previous column's `qqm1` buffer), while the alignment
engine stores that sum additionally multiplied by the covariance Boltzmann
factor `exp(pscore(i,j)/(kT/10))`. -/
theorem pf_qb_three_contributions (fl : FloatCfg) (vc : FoldCompound)
    (j : ℕ) (s : PFState) (i : ℕ) :
    ((pf_linear_cell fl vc j s i).qb i j
        = if vc.hc.matrix i j ≠ 0 then
            vc.E.exp_E_hp_loop i j + vc.E.exp_E_int_loop i j
              + vc.E.exp_E_mb_loop_fast i j s.qqm1
          else 0)
    ∧ ((alipf_linear_cell fl vc j s i).qb i j
        = if vc.hc.matrix i j ≠ 0 then
            (vc.E.exp_E_hp_loop i j + vc.E.exp_E_int_loop i j
                + vc.E.exp_E_mb_loop_fast i j s.qqm1)
              * vc.E.exp (vc.pscore i j / (vc.params.kT / 10))
          else 0) := by
  constructor
  · have h : (pf_linear_cell fl vc j s i).qb i j = pf_qb_val vc j s i :=
      upd2_same _ _ _ _
    rw [h]; rfl
  · have h : (alipf_linear_cell fl vc j s i).qb i j = ali_qb_val vc j s i :=
      upd2_same _ _ _ _
    rw [h]; rfl

/-- C3 (counterexample): on an alignment cell with a nonzero covariance
score factor the stored `qb(1,2)` is not the plain sum of the three loop
contributions: the compound `vcC3` has unit hairpin weight, zero interior
and multibranch weights, all pairs allowed, and `exp ≡ 2`, so the engine
stores 2 where the claim predicts 1. -/
theorem alipf_qb_covariance_counterexample :
    vcC3.hc.matrix 1 2 ≠ 0
      ∧ (alipf_linear fl0 vcC3 vcC3.mx).qb 1 2
          ≠ vcC3.E.exp_E_hp_loop 1 2 + vcC3.E.exp_E_int_loop 1 2
            + vcC3.E.exp_E_mb_loop_fast 1 2 (fun _ => 0) := by decide

/-- C5 (amended): the single-sequence circular pass always stores
`qo = qho + qio + qmo + scale[n]`, whereas the alignment circular pass adds
the open-chain term `scale[n]` only when `hc->up_ext[1] ≥ n`; the
unconditional `qo ≥ scale[n]` of the claim therefore only holds for the
single-sequence pass. -/
theorem pf_circ_qo_total (vc : FoldCompound) (s : PFState) :
    ((pf_circ vc s).qo
        = (pf_circ vc s).qho + (pf_circ vc s).qio + (pf_circ vc s).qmo
          + 1 * vc.scale vc.length)
    ∧ ((wrap_alipf_circ vc s).qo
        = (wrap_alipf_circ vc s).qho + (wrap_alipf_circ vc s).qio
          + (wrap_alipf_circ vc s).qmo
          + (if vc.length ≤ vc.hc.up_ext 1 then 1 * vc.scale vc.length
             else 0)) :=
  ⟨rfl, rfl⟩

/-- C5 (counterexample): on the alignment compound `vcC5` (length 1,
`hc->up_ext[1] = 0`, `scale ≡ 1`, all matrices zero) the alignment circular
pass stores `qo = 0`, which differs from `qho + qio + qmo + scale[n] = 1`
and violates `qo ≥ scale[n]`. -/
theorem alipf_circ_qo_open_chain_counterexample :
    (wrap_alipf_circ vcC5 vcC5.mx).qo
        ≠ (wrap_alipf_circ vcC5 vcC5.mx).qho + (wrap_alipf_circ vcC5 vcC5.mx).qio
          + (wrap_alipf_circ vcC5 vcC5.mx).qmo + vcC5.scale vcC5.length
      ∧ (wrap_alipf_circ vcC5 vcC5.mx).qo < vcC5.scale vcC5.length := by decide

/-- C6 (amended): both circular passes set `qm2(k)` to the sum over split
points u of `qm1(k,u)·qm1(u+1,n)`, but the single-sequence pass bounds the
split points with the model's `min_loop_size` (as the linear pass does)
while the alignment pass uses the compile-time constant `TURN` instead. -/
theorem pf_circ_qm2_two_branches (vc : FoldCompound) (s : PFState) (k : ℕ)
    (h1 : 1 ≤ k) :
    (k < vc.length - (vc.params.md.min_loop_size + 1) →
      (pf_circ vc s).qm2 k
        = isum (k + vc.params.md.min_loop_size + 1)
            (vc.length - (vc.params.md.min_loop_size + 2))
            (fun u => s.qm1 k u * s.qm1 (u + 1) vc.length))
    ∧ (k < vc.length - TURN →
      (wrap_alipf_circ vc s).qm2 k
        = isum (k + TURN + 1) (vc.length - (TURN + 2))
            (fun u => s.qm1 k u * s.qm1 (u + 1) vc.length)) := by
  constructor
  · intro h2
    show (if 1 ≤ k ∧ k < vc.length - (vc.params.md.min_loop_size + 1)
          then isum (k + vc.params.md.min_loop_size + 1)
            (vc.length - (vc.params.md.min_loop_size + 2))
            (fun u => s.qm1 k u * s.qm1 (u + 1) vc.length)
          else s.qm2 k) = _
    rw [if_pos ⟨h1, h2⟩]
  · intro h2
    show (if 1 ≤ k ∧ k < vc.length - TURN
          then isum (k + TURN + 1) (vc.length - (TURN + 2))
            (fun u => s.qm1 k u * s.qm1 (u + 1) vc.length)
          else s.qm2 k) = _
    rw [if_pos ⟨h1, h2⟩]

/-- C6 (witness): the amended property evaluated on the alignment compound
`vcC6` (length 9) at start position 1. -/
theorem pf_circ_qm2_two_branches_witness :
    (1 < vcC6.length - (vcC6.params.md.min_loop_size + 1) →
      (pf_circ vcC6 vcC6.mx).qm2 1
        = isum (1 + vcC6.params.md.min_loop_size + 1)
            (vcC6.length - (vcC6.params.md.min_loop_size + 2))
            (fun u => vcC6.mx.qm1 1 u * vcC6.mx.qm1 (u + 1) vcC6.length))
    ∧ (1 < vcC6.length - TURN →
      (wrap_alipf_circ vcC6 vcC6.mx).qm2 1
        = isum (1 + TURN + 1) (vcC6.length - (TURN + 2))
            (fun u => vcC6.mx.qm1 1 u * vcC6.mx.qm1 (u + 1) vcC6.length)) :=
  pf_circ_qm2_two_branches vcC6 vcC6.mx 1 (by decide)

/-- C6 (counterexample): on the alignment compound `vcC6` the model's
minimum loop size is 2 and `qm1` carries the two branches
`qm1(1,4) = qm1(5,9) = 1` (admissible for the linear pass's bound, since
`4 - 1 > 2`); the claim's sum with the bound of the linear pass is 1, but
the alignment circular pass, using `TURN = 3`, stores `qm2(1) = 0` —
although k = 1 lies inside its constructed range. -/
theorem alipf_circ_qm2_turn_counterexample :
    1 < vcC6.length - TURN
      ∧ (wrap_alipf_circ vcC6 vcC6.mx).qm2 1
          ≠ isum (1 + vcC6.params.md.min_loop_size + 1)
              (vcC6.length - (vcC6.params.md.min_loop_size + 2))
              (fun u => vcC6.mx.qm1 1 u * vcC6.mx.qm1 (u + 1) vcC6.length) := by
  decide

/-- C8: file_formats.c:817 tests `command = 'F'` — an assignment whose value
`'F'` is nonzero — instead of `command == 'F'`, so the ENFORCE bit is
or-ed into the context type for every command other than `P`; in
particular an unpaired command `U` (looptype defaulted to `A`) receives
`ALL_LOOPS | ENFORCE = 127` where its own (unreachable) branch at lines
819-820 would give exactly `ALL_LOOPS = 63`.  The `P` branch itself is the
masked complement, as documented. -/
theorem read_constraints_enforce_assignment_bug :
    read_constraints_type 'U' 'A' = Nat.lor CTX_ALL_LOOPS CTX_ENFORCE
      ∧ Nat.land (read_constraints_type 'U' 'A') CTX_ENFORCE ≠ 0
      ∧ read_constraints_type 'B' 'A' ≠ CTX_ALL_LOOPS
      ∧ Nat.land (read_constraints_type 'F' 'H') CTX_ENFORCE ≠ 0
      ∧ read_constraints_type 'P' 'H'
          = Nat.land (Nat.xor CTX_HP_LOOP 4294967295) CTX_ALL_LOOPS := by
  decide

/-- C10: a NULL fold-compound pointer makes `vrna_pf` return the sentinel
energy `INF/100` immediately: no status callback fires, no warning is
emitted, and no matrix is read or written. -/
theorem vrna_pf_null_compound (fl : FloatCfg) :
    vrna_pf fl none = Except.ok ⟨INF / 100, none, []⟩ := rfl

/-- C2 (amended): for every cell (i,j) processed by a linear engine the
stored exterior value is `qq(i)` plus the fully-unpaired weight (its
soft-constraint/ligand multipliers included, and only if
`hc->up_ext[i] ≥ j-i+1`) plus the split-point sum of `q(i,k)·qq(k+1)` —
where, in the single-sequence engine, each split term is additionally
multiplied by the generic soft-constraint callback
`exp_f(i,j,k,k+1)` when one is installed (neutral 1 otherwise); the
alignment engine has no such callback and matches the claim verbatim.
`qq` is the rolling buffer as it stands while column j is active. -/
theorem pf_q_exterior_decomposition (fl : FloatCfg) (vc : FoldCompound)
    (s : PFState) (i j : ℕ) (h1 : 1 ≤ i) (hij : i < j) :
    ((pf_linear_cell fl vc j s i).q i j
        = (pf_linear_cell fl vc j s i).qq i
          + (if j - i + 1 ≤ vc.hc.up_ext i then
              vc.scale (j - i + 1) * scEup vc.sc i (j - i + 1)
                * scF vc.sc i j i j DECOMP_EXT_UP * udExt vc i j
            else 0)
          + isum i (j - 1) (fun k =>
              (pf_linear_cell fl vc j s i).q i k
                * (pf_linear_cell fl vc j s i).qq (k + 1)
                * scF vc.sc i j k (k + 1) DECOMP_EXT_EXT_EXT))
    ∧ ((alipf_linear_cell fl vc j s i).q i j
        = (alipf_linear_cell fl vc j s i).qq i
          + (if j - i + 1 ≤ vc.hc.up_ext i then
              1 * vc.scale (j - i + 1)
                * aliEupSeg vc i (fun sI => vc.a2s sI j - vc.a2s sI i + 1)
            else 0)
          + isum i (j - 1) (fun k =>
              (alipf_linear_cell fl vc j s i).q i k
                * (alipf_linear_cell fl vc j s i).qq (k + 1))) := by
  constructor
  · have hq : (pf_linear_cell fl vc j s i).q i j = pf_q_val vc j s i :=
      upd2_same _ _ _ _
    have hqq : (pf_linear_cell fl vc j s i).qq i = pf_qq_val vc j s i :=
      upd1_same _ _ _
    have hsum : isum i (j - 1) (fun k =>
          (pf_linear_cell fl vc j s i).q i k
            * (pf_linear_cell fl vc j s i).qq (k + 1)
            * scF vc.sc i j k (k + 1) DECOMP_EXT_EXT_EXT)
        = isum i (j - 1) (fun k =>
            s.q i k * upd1 s.qq i (pf_qq_val vc j s i) (k + 1)
              * scF vc.sc i j k (k + 1) DECOMP_EXT_EXT_EXT) := by
      apply isum_congr
      intro k hk1 hk2
      have hkj : k ≠ j := by omega
      show upd2 s.q i j (pf_q_val vc j s i) i k
            * upd1 s.qq i (pf_qq_val vc j s i) (k + 1) * _ = _
      simp only [upd2, hkj, and_false, if_false]
    rw [hq, hqq, hsum]
    rfl
  · have hq : (alipf_linear_cell fl vc j s i).q i j = ali_q_val vc j s i :=
      upd2_same _ _ _ _
    have hqq : (alipf_linear_cell fl vc j s i).qq i = ali_qq_val vc j s i :=
      upd1_same _ _ _
    have hsum : isum i (j - 1) (fun k =>
          (alipf_linear_cell fl vc j s i).q i k
            * (alipf_linear_cell fl vc j s i).qq (k + 1))
        = isum i (j - 1) (fun k =>
            s.q i k * upd1 s.qq i (ali_qq_val vc j s i) (k + 1)) := by
      apply isum_congr
      intro k hk1 hk2
      have hkj : k ≠ j := by omega
      show upd2 s.q i j (ali_q_val vc j s i) i k
            * upd1 s.qq i (ali_qq_val vc j s i) (k + 1) = _
      simp only [upd2, hkj, and_false, if_false]
    rw [hq, hqq, hsum]
    rfl

/-- C2 (witness): the amended decomposition evaluated at cell (1,2) of the
compound `vcC2`. -/
theorem pf_q_exterior_decomposition_witness :
    ((pf_linear_cell fl0 vcC2 2 vcC2.mx 1).q 1 2
        = (pf_linear_cell fl0 vcC2 2 vcC2.mx 1).qq 1
          + (if 2 - 1 + 1 ≤ vcC2.hc.up_ext 1 then
              vcC2.scale (2 - 1 + 1) * scEup vcC2.sc 1 (2 - 1 + 1)
                * scF vcC2.sc 1 2 1 2 DECOMP_EXT_UP * udExt vcC2 1 2
            else 0)
          + isum 1 (2 - 1) (fun k =>
              (pf_linear_cell fl0 vcC2 2 vcC2.mx 1).q 1 k
                * (pf_linear_cell fl0 vcC2 2 vcC2.mx 1).qq (k + 1)
                * scF vcC2.sc 1 2 k (k + 1) DECOMP_EXT_EXT_EXT))
    ∧ ((alipf_linear_cell fl0 vcC2 2 vcC2.mx 1).q 1 2
        = (alipf_linear_cell fl0 vcC2 2 vcC2.mx 1).qq 1
          + (if 2 - 1 + 1 ≤ vcC2.hc.up_ext 1 then
              1 * vcC2.scale (2 - 1 + 1)
                * aliEupSeg vcC2 1 (fun sI => vcC2.a2s sI 2 - vcC2.a2s sI 1 + 1)
            else 0)
          + isum 1 (2 - 1) (fun k =>
              (alipf_linear_cell fl0 vcC2 2 vcC2.mx 1).q 1 k
                * (alipf_linear_cell fl0 vcC2 2 vcC2.mx 1).qq (k + 1))) :=
  pf_q_exterior_decomposition fl0 vcC2 vcC2.mx 1 2 (by decide) (by decide)

/-- C2 (counterexample): on the single-sequence compound `vcC2` (length 3,
minimum loop size 0, every pair allowed, unit weights, and a generic
soft-constraint callback `exp_f ≡ 2`) the engine stores `q(1,3) = 16`,
while the claim's plain split sum — evaluated on the engine's own stored
values, with `qq1` holding the rolling buffer of the final column after
the swap — gives `6 + 2 + 4 = 12`. -/
theorem pf_q_exterior_plain_split_counterexample :
    (pf_linear fl0 vcC2 vcC2.mx).q 1 3
      ≠ (pf_linear fl0 vcC2 vcC2.mx).qq1 1
        + (if 3 - 1 + 1 ≤ vcC2.hc.up_ext 1 then
            vcC2.scale (3 - 1 + 1) * scEup vcC2.sc 1 (3 - 1 + 1)
              * scF vcC2.sc 1 3 1 3 DECOMP_EXT_UP * udExt vcC2 1 3
          else 0)
        + isum 1 (3 - 1) (fun k =>
            (pf_linear fl0 vcC2 vcC2.mx).q 1 k
              * (pf_linear fl0 vcC2 vcC2.mx).qq1 (k + 1)) := by decide

/-- C4: in both linear engines, a freshly computed `q(i,j)` that reaches or
exceeds the floating type's maximum makes the cell record the fatal error
naming exactly the interval (i,j) (and only then); a new running maximum
beyond one tenth of that maximum appends the non-fatal
`Q close to overflow` warning naming (i,j); and below the maximum no error
is recorded, so computation continues. -/
theorem pf_overflow_handling (fl : FloatCfg) (vc : FoldCompound) (j : ℕ)
    (s : PFState) (i : ℕ) (h : s.err = none) :
    (((pf_linear_cell fl vc j s i).err = some (i, j)
        ↔ fl.max_real ≤ (pf_linear_cell fl vc j s i).q i j)
      ∧ (s.Qmax < (pf_linear_cell fl vc j s i).q i j →
          fl.max_real / 10 < (pf_linear_cell fl vc j s i).q i j →
          Msg.qCloseToOverflow i j ((pf_linear_cell fl vc j s i).q i j)
            ∈ (pf_linear_cell fl vc j s i).warnings)
      ∧ ((pf_linear_cell fl vc j s i).q i j < fl.max_real →
          (pf_linear_cell fl vc j s i).err = none))
    ∧ (((alipf_linear_cell fl vc j s i).err = some (i, j)
        ↔ fl.max_real ≤ (alipf_linear_cell fl vc j s i).q i j)
      ∧ (s.Qmax < (alipf_linear_cell fl vc j s i).q i j →
          fl.max_real / 10 < (alipf_linear_cell fl vc j s i).q i j →
          Msg.qCloseToOverflow i j ((alipf_linear_cell fl vc j s i).q i j)
            ∈ (alipf_linear_cell fl vc j s i).warnings)
      ∧ ((alipf_linear_cell fl vc j s i).q i j < fl.max_real →
          (alipf_linear_cell fl vc j s i).err = none)) := by
  constructor
  · rw [show (pf_linear_cell fl vc j s i).q i j = pf_q_val vc j s i from
      upd2_same _ _ _ _]
    refine ⟨?_, ?_, ?_⟩
    · show (if fl.max_real ≤ pf_q_val vc j s i then some (i, j) else s.err)
          = some (i, j) ↔ _
      rw [h]
      split_ifs with hc
      · simp [hc]
      · simp [hc]
    · intro hnew hten
      show _ ∈ (if s.Qmax < pf_q_val vc j s i
            ∧ fl.max_real / 10 < pf_q_val vc j s i then
          Msg.qCloseToOverflow i j (pf_q_val vc j s i) :: s.warnings
        else s.warnings)
      rw [if_pos ⟨hnew, hten⟩]
      exact List.mem_cons_self _ _
    · intro hlt
      show (if fl.max_real ≤ pf_q_val vc j s i then some (i, j) else s.err)
          = none
      rw [if_neg (not_le.mpr hlt), h]
  · rw [show (alipf_linear_cell fl vc j s i).q i j = ali_q_val vc j s i from
      upd2_same _ _ _ _]
    refine ⟨?_, ?_, ?_⟩
    · show (if fl.max_real ≤ ali_q_val vc j s i then some (i, j) else s.err)
          = some (i, j) ↔ _
      rw [h]
      split_ifs with hc
      · simp [hc]
      · simp [hc]
    · intro hnew hten
      show _ ∈ (if s.Qmax < ali_q_val vc j s i
            ∧ fl.max_real / 10 < ali_q_val vc j s i then
          Msg.qCloseToOverflow i j (ali_q_val vc j s i) :: s.warnings
        else s.warnings)
      rw [if_pos ⟨hnew, hten⟩]
      exact List.mem_cons_self _ _
    · intro hlt
      show (if fl.max_real ≤ ali_q_val vc j s i then some (i, j) else s.err)
          = none
      rw [if_neg (not_le.mpr hlt), h]

/-- C4 (witness): the overflow bookkeeping evaluated at cell (1,2) of the
compound `vcC2` starting from the error-free zero state. -/
theorem pf_overflow_handling_witness :
    (((pf_linear_cell fl0 vcC2 2 mx0 1).err = some (1, 2)
        ↔ fl0.max_real ≤ (pf_linear_cell fl0 vcC2 2 mx0 1).q 1 2)
      ∧ (mx0.Qmax < (pf_linear_cell fl0 vcC2 2 mx0 1).q 1 2 →
          fl0.max_real / 10 < (pf_linear_cell fl0 vcC2 2 mx0 1).q 1 2 →
          Msg.qCloseToOverflow 1 2 ((pf_linear_cell fl0 vcC2 2 mx0 1).q 1 2)
            ∈ (pf_linear_cell fl0 vcC2 2 mx0 1).warnings)
      ∧ ((pf_linear_cell fl0 vcC2 2 mx0 1).q 1 2 < fl0.max_real →
          (pf_linear_cell fl0 vcC2 2 mx0 1).err = none))
    ∧ (((alipf_linear_cell fl0 vcC2 2 mx0 1).err = some (1, 2)
        ↔ fl0.max_real ≤ (alipf_linear_cell fl0 vcC2 2 mx0 1).q 1 2)
      ∧ (mx0.Qmax < (alipf_linear_cell fl0 vcC2 2 mx0 1).q 1 2 →
          fl0.max_real / 10 < (alipf_linear_cell fl0 vcC2 2 mx0 1).q 1 2 →
          Msg.qCloseToOverflow 1 2 ((alipf_linear_cell fl0 vcC2 2 mx0 1).q 1 2)
            ∈ (alipf_linear_cell fl0 vcC2 2 mx0 1).warnings)
      ∧ ((alipf_linear_cell fl0 vcC2 2 mx0 1).q 1 2 < fl0.max_real →
          (alipf_linear_cell fl0 vcC2 2 mx0 1).err = none)) :=
  pf_overflow_handling fl0 vcC2 2 mx0 1 rfl

/-- C7: after a linear-engine column finishes without a fatal error, the
buffers are exchanged: `qqm1` (resp. `qq1`) then holds exactly the buffer
of `qqm` (resp. `qq`) values as computed while column j was active, for
every position, and `qqm`/`qq` hold the previous column's buffers — in
both the single-sequence and the alignment engine. -/
theorem pf_rolling_buffer_swap (fl : FloatCfg) (vc : FoldCompound)
    (s : PFState) (j : ℕ)
    (h1 : (pf_linear_inner fl vc s j).err = none)
    (h2 : (alipf_linear_inner fl vc s j).err = none) :
    ((pf_linear_col fl vc s j).qqm1 = (pf_linear_inner fl vc s j).qqm
      ∧ (pf_linear_col fl vc s j).qq1 = (pf_linear_inner fl vc s j).qq
      ∧ (pf_linear_col fl vc s j).qqm = (pf_linear_inner fl vc s j).qqm1
      ∧ (pf_linear_col fl vc s j).qq = (pf_linear_inner fl vc s j).qq1)
    ∧ ((alipf_linear_col fl vc s j).qqm1 = (alipf_linear_inner fl vc s j).qqm
      ∧ (alipf_linear_col fl vc s j).qq1 = (alipf_linear_inner fl vc s j).qq
      ∧ (alipf_linear_col fl vc s j).qqm = (alipf_linear_inner fl vc s j).qqm1
      ∧ (alipf_linear_col fl vc s j).qq = (alipf_linear_inner fl vc s j).qq1) := by
  constructor
  · simp [pf_linear_col, h1]
  · simp [alipf_linear_col, h2]

/-- C7 (witness): the buffer-swap invariant evaluated on `vcC2` at
column 2 from the zero state (whose inner pass is error-free). -/
theorem pf_rolling_buffer_swap_witness :
    ((pf_linear_col fl0 vcC2 mx0 2).qqm1 = (pf_linear_inner fl0 vcC2 mx0 2).qqm
      ∧ (pf_linear_col fl0 vcC2 mx0 2).qq1 = (pf_linear_inner fl0 vcC2 mx0 2).qq
      ∧ (pf_linear_col fl0 vcC2 mx0 2).qqm = (pf_linear_inner fl0 vcC2 mx0 2).qqm1
      ∧ (pf_linear_col fl0 vcC2 mx0 2).qq = (pf_linear_inner fl0 vcC2 mx0 2).qq1)
    ∧ ((alipf_linear_col fl0 vcC2 mx0 2).qqm1
          = (alipf_linear_inner fl0 vcC2 mx0 2).qqm
      ∧ (alipf_linear_col fl0 vcC2 mx0 2).qq1
          = (alipf_linear_inner fl0 vcC2 mx0 2).qq
      ∧ (alipf_linear_col fl0 vcC2 mx0 2).qqm
          = (alipf_linear_inner fl0 vcC2 mx0 2).qqm1
      ∧ (alipf_linear_col fl0 vcC2 mx0 2).qq
          = (alipf_linear_inner fl0 vcC2 mx0 2).qq1) :=
  pf_rolling_buffer_swap fl0 vcC2 mx0 2 (by decide) (by decide)

/-- C9: for a non-NULL compound whose type discriminator is neither the
single-sequence nor the alignment variant, `vrna_pf` emits the
`Unrecognized fold compound type` warning and returns the sentinel energy
`INF/100`, handing back the compound with its matrices untouched (only the
PRE status callback, which precedes the type dispatch, may have fired). -/
theorem vrna_pf_unrecognized_type (fl : FloatCfg) (vc : FoldCompound)
    (h : vc.fctype = FCType.other) :
    vrna_pf fl (some vc)
      = Except.ok ⟨INF / 100, some vc,
          (if vc.stat_cb then [Event.statPre] else [])
            ++ [Event.warnUnrecognized]⟩ := by
  simp only [vrna_pf, vrna_fold_compound_prepare, h]

/-- C9 (witness): the unrecognized-type short circuit evaluated on the
compound `vcC9`. -/
theorem vrna_pf_unrecognized_type_witness :
    vrna_pf fl0 (some vcC9)
      = Except.ok ⟨INF / 100, some vcC9,
          (if vcC9.stat_cb then [Event.statPre] else [])
            ++ [Event.warnUnrecognized]⟩ :=
  vrna_pf_unrecognized_type fl0 vcC9 rfl

/-- The pairing-probability derivation only writes `probs` and therefore
does not change the quantity selected for the free energy. -/
theorem Q_select_probs (md : Model) (n : ℕ) (mx : PFState)
    (p : ℕ → ℕ → ℚ) :
    Q_select md n { mx with probs := p } = Q_select md n mx := rfl

/-- The circular post-processing passes never touch the fatal-error flag. -/
theorem pf_circ_err (vc : FoldCompound) (s : PFState) :
    (pf_circ vc s).err = s.err := rfl

/-- Alignment analogue of `pf_circ_err`. -/
theorem wrap_alipf_circ_err (vc : FoldCompound) (s : PFState) :
    (wrap_alipf_circ vc s).err = s.err := rfl

/-- The energy reported by the tail of `vrna_pf`, for any matrices and any
event prefix: `(-ln Q - n·ln pf_scale)·kT/1000`, divided additionally by
`n_seq` exactly for alignment compounds. -/
theorem vrna_pf_finish_energy (fl : FloatCfg) (vc : FoldCompound)
    (ev : List Event) (mx : PFState) :
    Except.map PFResult.free_energy (vrna_pf_finish fl vc ev mx)
      = Except.ok ((-(vc.E.log (Q_select vc.params.md vc.length mx))
            - (vc.length : ℚ) * vc.E.log vc.params.pf_scale) * vc.params.kT
            / 1000
          / (if vc.fctype = FCType.alignment then (vc.n_seq : ℚ) else 1)) := by
  cases hb : vc.params.md.compute_bpp <;>
    cases hft : vc.fctype <;>
      simp [vrna_pf_finish, hb, hft, Q_select_probs, div_div, Except.map]

/-- C1: for every prepared fold compound of recognized type whose run does
not abort through the fatal overflow check, `vrna_pf` returns
`(-ln Q - n·ln pf_scale)·kT/1000` — divided additionally by `n_seq` for an
alignment compound — where Q is read off the final matrices as `qb(1,n)`
when the model's backtrack type is `C`, `qm(1,n)` when it is `M`, `qo`
when the model is circular, and `q(1,n)` otherwise. -/
theorem vrna_pf_ensemble_energy (fl : FloatCfg) (vc : FoldCompound)
    (hft : vc.fctype ≠ FCType.other)
    (herr : (pf_post_mx fl vc).err = none) :
    Except.map PFResult.free_energy (vrna_pf fl (some vc))
      = Except.ok ((-(vc.E.log (Q_select vc.params.md vc.length
              (pf_post_mx fl vc)))
            - (vc.length : ℚ) * vc.E.log vc.params.pf_scale) * vc.params.kT
            / 1000
          / (if vc.fctype = FCType.alignment then (vc.n_seq : ℚ) else 1)) := by
  cases hft2 : vc.fctype with
  | other => exact absurd hft2 hft
  | single =>
    have hlin : (pf_linear fl vc vc.mx).err = none := by
      simp only [pf_post_mx, vrna_fold_compound_prepare, hft2] at herr
      cases hcirc : vc.params.md.circ
      · rw [hcirc] at herr
        simpa using herr
      · rw [hcirc] at herr
        rw [if_pos rfl, pf_circ_err] at herr
        exact herr
    simp only [vrna_pf, vrna_fold_compound_prepare, pf_post_mx, hft2, hlin]
    rw [vrna_pf_finish_energy]
    simp [hft2]
  | alignment =>
    have hlin : (alipf_linear fl vc vc.mx).err = none := by
      simp only [pf_post_mx, vrna_fold_compound_prepare, hft2] at herr
      cases hcirc : vc.params.md.circ
      · rw [hcirc] at herr
        simpa using herr
      · rw [hcirc] at herr
        rw [if_pos rfl, wrap_alipf_circ_err] at herr
        exact herr
    simp only [vrna_pf, vrna_fold_compound_prepare, pf_post_mx, hft2, hlin]
    rw [vrna_pf_finish_energy]
    simp [hft2]

/-- C1 (witness): the reported energy on the trivial single-sequence
compound `vc0`. -/
theorem vrna_pf_ensemble_energy_witness :
    Except.map PFResult.free_energy (vrna_pf fl0 (some vc0))
      = Except.ok ((-(vc0.E.log (Q_select vc0.params.md vc0.length
              (pf_post_mx fl0 vc0)))
            - (vc0.length : ℚ) * vc0.E.log vc0.params.pf_scale)
            * vc0.params.kT / 1000
          / (if vc0.fctype = FCType.alignment then (vc0.n_seq : ℚ) else 1)) :=
  vrna_pf_ensemble_energy fl0 vc0 (by decide) (by decide)

end ViennaRNA
